import Mathlib

/-!
Shallow embedding of the code-agent core (packages/core/src/tools.ts,
packages/core/src/messages.ts, packages/core/src/session.ts and the Groq
model client) used to settle the specification claims. Effectful
TypeScript is modelled by explicit state passing: platform sources
(crypto.randomUUID, Date.now, JSON.parse, JSON.stringify, the network
transport) are supplied as oracle functions, and a thrown exception is an
Except.error value carrying the exception message.
-/

namespace CodeAgent

/-- Tool lifecycle states (tools.ts, ToolState enum). -/
inductive ToolState where
  | pending
  | running
  | completed
  | error
deriving DecidableEq

/-- One recorded tool invocation (tools.ts, ToolExecution). Optional
TypeScript fields are Option; P is the parameter-object type, V the
tool output type. -/
structure ToolExecution (P V : Type) where
  id : String
  name : String
  state : ToolState
  input : P
  output : Option V
  error : Option String
  startTime : Nat
  endTime : Option Nat
deriving DecidableEq

/-- A registered tool (tools.ts, interface Tool). The zod schema parse
and the execution function may throw, modelled as Except. -/
structure Tool (P V : Type) where
  name : String
  description : String
  parse : P → Except String P
  exec : P → Except String V

/-- The ToolExecutor tool map, keyed by name (tools.ts line 73). -/
def Registry (P V : Type) : Type := String → Option (Tool P V)

/-- An executor with no registered tools. -/
def emptyRegistry (P V : Type) : Registry P V := fun _ => none

/-- registerTool (tools.ts lines 76-78): Map.set, last registration for
a name wins. -/
def ToolExecutor.registerTool (reg : Registry P V) (t : Tool P V) : Registry P V :=
  fun n => if n = t.name then some t else reg n

/-- The try/catch/finally body of execute after the tool is found
(tools.ts lines 86-108): the record starts pending, moves to running,
then a schema-validation failure or a tool failure lands in the error
state with the message captured, success lands in completed with the
output; endTime is set in the finally block in every case. -/
def ToolExecutor.runTool (tool : Tool P V) (params : P) (uuid : String)
    (t0 t1 : Nat) : ToolExecution P V :=
  match tool.parse params with
  | Except.error msg =>
    { id := uuid, name := tool.name, state := ToolState.error, input := params,
      output := none, error := some msg, startTime := t0, endTime := some t1 }
  | Except.ok validated =>
    match tool.exec validated with
    | Except.error msg =>
      { id := uuid, name := tool.name, state := ToolState.error, input := params,
        output := none, error := some msg, startTime := t0, endTime := some t1 }
    | Except.ok v =>
      { id := uuid, name := tool.name, state := ToolState.completed, input := params,
        output := some v, error := none, startTime := t0, endTime := some t1 }

/-- ToolExecutor.execute (tools.ts lines 80-111). An unregistered name
throws (tools.ts line 83): the thrown Error is the Except.error case and
propagates to the caller; only a found tool produces a ToolExecution. -/
def ToolExecutor.execute (reg : Registry P V) (name : String) (params : P)
    (uuid : String) (t0 t1 : Nat) : Except String (ToolExecution P V) :=
  match reg name with
  | none => Except.error ("Tool " ++ name ++ " not found")
  | some tool => Except.ok (ToolExecutor.runTool tool params uuid t0 t1)

/-- A wire-format tool-call function payload (groq client, GroqResponse
schema): the tool name and the JSON-encoded arguments string. -/
structure WireFunction where
  name : String
  arguments : String
deriving DecidableEq

/-- A wire-format tool call as parsed from a completion response. -/
structure WireToolCall where
  id : String
  type : String
  function : WireFunction
deriving DecidableEq

/-- The usage object of a completion envelope; both counters may be
absent (the code reads data.usage?.input_tokens with a 0 fallback). -/
structure Usage where
  input_tokens : Option Nat
  output_tokens : Option Nat
deriving DecidableEq

/-- The message object inside the first choice of a completion
envelope; content and tool_calls may be absent. -/
structure RawMessage where
  content : Option String
  tool_calls : Option (List WireToolCall)
deriving DecidableEq

/-- One choice of a completion envelope; the message may be absent. -/
structure RawChoice where
  message : Option RawMessage
deriving DecidableEq

/-- A decoded completion envelope as the client reads it: the choices
array and the optional usage object. -/
structure RawData where
  choices : List RawChoice
  usage : Option Usage
deriving DecidableEq

/-- Input/output token counts of one completion (GroqResponse.tokens). -/
structure Tokens where
  input : Nat
  output : Nat
deriving DecidableEq

/-- The uniform result shape of GroqClient.complete (GroqResponse). -/
structure GroqResponse where
  content : String
  tokens : Tokens
  toolCalls : List WireToolCall
deriving DecidableEq

/-- Response extraction (groq client lines 133-141): first choice text
with empty-string fallback, usage counters with 0 fallback, tool calls
with empty-list fallback. -/
def GroqClient.extractResponse (data : RawData) : GroqResponse :=
  { content := ((data.choices.head?.bind (·.message)).bind (·.content)).getD ""
  , tokens :=
      { input := (data.usage.bind (·.input_tokens)).getD 0
      , output := (data.usage.bind (·.output_tokens)).getD 0 }
  , toolCalls := ((data.choices.head?.bind (·.message)).bind (·.tool_calls)).getD [] }

/-- Outcome of one fetch attempt: the fetch itself rejects (netError),
or the remote answers with a status, a statusText and a body text. -/
inductive FetchOutcome where
  | netError (msg : String)
  | httpResponse (status : Nat) (statusText : String) (body : String)
deriving DecidableEq

/-- Response.ok of the fetch API: status in the 200-299 range. -/
def respOk (status : Nat) : Bool := 200 ≤ status && status < 300

/-- The error message built for a non-2xx response (groq client
lines 111-113). -/
def GroqClient.groqApiError (status : Nat) (statusText errorText : String) : String :=
  "Groq API error: " ++ toString status ++ " " ++ statusText ++ " - " ++ errorText

/-- The fixed attempt ceiling (groq client line 91). -/
def GroqClient.maxRetries : Nat := 3

/-- The final wrapper thrown after the loop (groq client lines 153-155). -/
def GroqClient.exhaustedMsg (lastError : Option String) : String :=
  "Failed to complete with Groq after " ++ toString GroqClient.maxRetries
    ++ " attempts: " ++ lastError.getD "Unknown error"

/-- The retry loop of GroqClient.complete (groq client lines 94-152),
translated iteration by iteration. parseJson models response.json() on
the body text (Except.error = a JSON decode throw), transport gives the
outcome of the fetch on each attempt number. The loop head is
the source condition attempt < maxRetries; the first argument is fuel
equal to the remaining iterations, so the zero-fuel case is unreachable
from GroqClient.complete and returns the same final throw. Inside an
iteration: a retryable status (429 or >= 500) records the error and
continues when attempt < maxRetries, otherwise falls through to the
throw; every throw inside the try body (including the non-retryable
status throw and a JSON decode throw) is caught by the catch block,
which records the error and also retries while attempt < maxRetries. -/
def GroqClient.completeLoop (parseJson : String → Except String RawData)
    (transport : Nat → FetchOutcome) :
    Nat → Nat → Option String → Except String GroqResponse
  | 0, _, lastError => Except.error (GroqClient.exhaustedMsg lastError)
  | fuel + 1, attempt, lastError =>
    if attempt < GroqClient.maxRetries then
      match transport attempt with
      | FetchOutcome.netError msg =>
        if attempt < GroqClient.maxRetries then
          GroqClient.completeLoop parseJson transport fuel (attempt + 1) (some msg)
        else Except.error (GroqClient.exhaustedMsg (some msg))
      | FetchOutcome.httpResponse status statusText body =>
        if respOk status then
          match parseJson body with
          | Except.ok data => Except.ok (GroqClient.extractResponse data)
          | Except.error m =>
            if attempt < GroqClient.maxRetries then
              GroqClient.completeLoop parseJson transport fuel (attempt + 1) (some m)
            else Except.error (GroqClient.exhaustedMsg (some m))
        else
          if status = 429 ∨ 500 ≤ status then
            if attempt < GroqClient.maxRetries then
              GroqClient.completeLoop parseJson transport fuel (attempt + 1)
                (some (GroqClient.groqApiError status statusText body))
            else
              Except.error (GroqClient.exhaustedMsg
                (some (GroqClient.groqApiError status statusText body)))
          else
            if attempt < GroqClient.maxRetries then
              GroqClient.completeLoop parseJson transport fuel (attempt + 1)
                (some (GroqClient.groqApiError status statusText body))
            else
              Except.error (GroqClient.exhaustedMsg
                (some (GroqClient.groqApiError status statusText body)))
    else Except.error (GroqClient.exhaustedMsg lastError)

/-- GroqClient.complete (groq client lines 52-156): the loop entered at
attempt 1 with no recorded error; fuel maxRetries covers every
iteration the source condition allows. -/
def GroqClient.complete (parseJson : String → Except String RawData)
    (transport : Nat → FetchOutcome) : Except String GroqResponse :=
  GroqClient.completeLoop parseJson transport GroqClient.maxRetries 1 none

/-- Message roles (messages.ts, MessageRole enum). -/
inductive Role where
  | system
  | user
  | assistant
  | tool
deriving DecidableEq

/-- A decoded tool call carried by an assistant message (messages.ts,
ToolCall): parameters are the decoded JSON value, of type P. -/
structure ToolCallRec (P : Type) where
  id : String
  name : String
  parameters : P
deriving DecidableEq

/-- A tool result carried by a tool message (messages.ts, ToolResult). -/
structure ToolResultRec (V : Type) where
  id : String
  result : Option V
  error : Option String
deriving DecidableEq

/-- A conversation message (messages.ts, Message schema). Optional
fields are Option; tokens, when present, is the pair the Groq client
always fills. -/
structure Message (P V : Type) where
  id : String
  role : Role
  content : String
  toolCalls : Option (List (ToolCallRec P))
  toolResults : Option (List (ToolResultRec V))
  timestamp : Nat
  tokens : Option Tokens
deriving DecidableEq

/-- A conversation (messages.ts, Conversation schema). -/
structure Conversation (P V : Type) where
  id : String
  messages : List (Message P V)
  totalTokens : Tokens
  createdAt : Nat
  updatedAt : Nat
deriving DecidableEq

/-- createConversation (messages.ts lines 61-69): a fresh id, an empty
message list and zero token counters. uuid and now stand for the
crypto.randomUUID and Date.now results of this call. -/
def createConversation (P V : Type) (uuid : String) (now : Nat) : Conversation P V :=
  { id := uuid, messages := [], totalTokens := { input := 0, output := 0 },
    createdAt := now, updatedAt := now }

/-- Session.clear (session.ts lines 265-267): the old conversation is
discarded and replaced by createConversation; nothing else happens (in
particular no message is seeded). -/
def Session.clear (_old : Conversation P V) (uuid : String) (now : Nat) : Conversation P V :=
  createConversation P V uuid now

/-- The conversation as the Session constructor leaves it (session.ts
lines 36 and 47-79): createConversation followed by pushing one system
message holding the system prompt. The literal prompt text does not
matter to any claim and is passed in as systemPromptText. -/
def Session.initialConversation (P V : Type) (uuidConv : String) (nowConv : Nat)
    (systemPromptText : String) (uuidMsg : String) (nowMsg : Nat) : Conversation P V :=
  let c := createConversation P V uuidConv nowConv
  { c with messages := c.messages ++
      [{ id := uuidMsg, role := Role.system, content := systemPromptText,
         toolCalls := none, toolResults := none, timestamp := nowMsg, tokens := none }] }

/-- Session.getTokenUsage result shape. -/
structure TokenUsage where
  input : Nat
  output : Nat
  total : Nat
deriving DecidableEq

/-- Session.getTokenUsage (session.ts lines 260-263). -/
def Session.getTokenUsage (conv : Conversation P V) : TokenUsage :=
  { input := conv.totalTokens.input, output := conv.totalTokens.output,
    total := conv.totalTokens.input + conv.totalTokens.output }

/-- Platform oracles used by the session: JSON.parse specialised to a
tool-call arguments string (decodeArgs, Except.error = a parse throw),
JSON.stringify of a tool output and of the synthesized error object,
and indexed streams of crypto.randomUUID and Date.now results. -/
structure World (P V : Type) where
  decodeArgs : String → Except String P
  stringifyOutput : Option V → String
  stringifyErrorObj : String → String
  uuid : Nat → String
  now : Nat → Nat

/-- Argument decoding for the assistant message (session.ts lines
104-108): response.toolCalls.map with JSON.parse per call; the first
parse throw aborts the whole map uncaught. -/
def Session.decodeWireCalls (w : World P V) :
    List WireToolCall → Except String (List (ToolCallRec P))
  | [] => Except.ok []
  | c :: rest => do
    let p ← w.decodeArgs c.function.arguments
    let others ← Session.decodeWireCalls w rest
    pure ({ id := c.id, name := c.function.name, parameters := p } :: others)

/-- The body of the per-call try block (session.ts lines 117-121):
JSON.parse of the arguments then ToolExecutor.execute, either of which
may throw into the surrounding catch. -/
def Session.toolPipeline (w : World P V) (reg : Registry P V) (tick : Nat)
    (c : WireToolCall) : Except String (ToolExecution P V) := do
  let params ← w.decodeArgs c.function.arguments
  ToolExecutor.execute reg c.function.name params (w.uuid tick) (w.now (tick + 1))
    (w.now (tick + 2))

/-- The tool message appended for one tool call (session.ts lines
115-159): on a returned execution, a tool message carrying its output
and error; on a throw, the catch synthesizes an error result with a
null payload and the exception message. -/
def Session.toolTurnMessage (w : World P V) (reg : Registry P V) (tick : Nat)
    (c : WireToolCall) : Message P V :=
  match Session.toolPipeline w reg tick c with
  | Except.ok execution =>
    { id := w.uuid (tick + 3), role := Role.tool,
      content := w.stringifyOutput execution.output,
      toolCalls := none,
      toolResults := some [{ id := c.id, result := execution.output,
                             error := execution.error }],
      timestamp := w.now (tick + 3), tokens := none }
  | Except.error msg =>
    { id := w.uuid (tick + 3), role := Role.tool,
      content := w.stringifyErrorObj msg,
      toolCalls := none,
      toolResults := some [{ id := c.id, result := none, error := some msg }],
      timestamp := w.now (tick + 3), tokens := none }

/-- The sequential for-loop over the tool calls (session.ts line 115):
one tool message per call, in call order; four oracle ticks per call. -/
def Session.runToolCalls (w : World P V) (reg : Registry P V) :
    Nat → List WireToolCall → List (Message P V) × Nat
  | tick, [] => ([], tick)
  | tick, c :: rest =>
    let m := Session.toolTurnMessage w reg tick c
    let r := Session.runToolCalls w reg (tick + 4) rest
    (m :: r.1, r.2)

/-- Everything one sendMessage call leaves behind: the returned message
or the propagated exception, the updated conversation, the number of
completion requests issued, and the next oracle tick. -/
structure TurnOutcome (P V : Type) where
  result : Except String (Message P V)
  conv : Conversation P V
  completionsIssued : Nat
  tick : Nat

/-- Session.sendMessage (session.ts lines 82-198). groq i is the
outcome of the i-th completion request of this turn (Except.error = the
model client threw). The user message is appended first; a completion
failure propagates with the already-appended transcript prefix kept. With tool calls
present, the assistant message construction decodes every arguments
string (a decode throw is uncaught and aborts the turn), one tool
message per call is appended by the loop, and a second completion
produces the final assistant message; both responses contribute to the
token counters. Without tool calls the single response is appended and
counted. -/
def Session.sendMessage (w : World P V) (reg : Registry P V)
    (groq : Nat → Except String GroqResponse) (conv : Conversation P V)
    (tick : Nat) (content : String) : TurnOutcome P V :=
  let userMessage : Message P V :=
    { id := w.uuid tick, role := Role.user, content := content,
      toolCalls := none, toolResults := none, timestamp := w.now tick, tokens := none }
  let conv1 := { conv with messages := conv.messages ++ [userMessage] }
  match groq 0 with
  | Except.error e =>
    { result := Except.error e, conv := conv1, completionsIssued := 1, tick := tick + 1 }
  | Except.ok response =>
    if response.toolCalls.isEmpty then
      let assistantMessage : Message P V :=
        { id := w.uuid (tick + 1), role := Role.assistant, content := response.content,
          toolCalls := none, toolResults := none, timestamp := w.now (tick + 1),
          tokens := some response.tokens }
      { result := Except.ok assistantMessage
      , conv :=
          { conv1 with
            messages := conv1.messages ++ [assistantMessage]
          , totalTokens :=
              { input := conv1.totalTokens.input + response.tokens.input
              , output := conv1.totalTokens.output + response.tokens.output }
          , updatedAt := w.now (tick + 2) }
      , completionsIssued := 1, tick := tick + 3 }
    else
      match Session.decodeWireCalls w response.toolCalls with
      | Except.error e =>
        { result := Except.error e, conv := conv1, completionsIssued := 1,
          tick := tick + 1 }
      | Except.ok decoded =>
        let assistantMessage : Message P V :=
          { id := w.uuid (tick + 1), role := Role.assistant, content := response.content,
            toolCalls := some decoded, toolResults := none, timestamp := w.now (tick + 1),
            tokens := some response.tokens }
        let conv2 := { conv1 with messages := conv1.messages ++ [assistantMessage] }
        let run := Session.runToolCalls w reg (tick + 2) response.toolCalls
        let conv3 := { conv2 with messages := conv2.messages ++ run.1 }
        match groq 1 with
        | Except.error e =>
          { result := Except.error e, conv := conv3, completionsIssued := 2,
            tick := run.2 }
        | Except.ok finalResponse =>
          let finalMessage : Message P V :=
            { id := w.uuid run.2, role := Role.assistant,
              content := finalResponse.content,
              toolCalls := none, toolResults := none, timestamp := w.now run.2,
              tokens := some finalResponse.tokens }
          { result := Except.ok finalMessage
          , conv :=
              { conv3 with
                messages := conv3.messages ++ [finalMessage]
              , totalTokens :=
                  { input := conv3.totalTokens.input + response.tokens.input
                      + finalResponse.tokens.input
                  , output := conv3.totalTokens.output + response.tokens.output
                      + finalResponse.tokens.output }
              , updatedAt := w.now (run.2 + 1) }
          , completionsIssued := 2, tick := run.2 + 2 }

/-- A driver iterating Session.sendMessage over a list of user texts,
each turn answered by one fixed completion response. -/
def Session.runTurns (w : World P V) (reg : Registry P V) :
    Conversation P V → Nat → List (String × GroqResponse) → Conversation P V
  | conv, _, [] => conv
  | conv, tick, p :: rest =>
    let o := Session.sendMessage w reg (fun _ => Except.ok p.2) conv tick p.1
    Session.runTurns w reg o.conv o.tick rest

/-- The per-line handling of GroqClient.parseStream (groq client lines
212-227), applied to the complete lines of the response body: only
lines starting with the data marker are considered, their payload is
the line with the first six characters removed, the literal [DONE]
payload ends the sequence, an invalid JSON payload is skipped, and a
decoded delta is yielded only when non-empty. parseDelta models
JSON.parse plus the choices[0]?.delta?.content extraction: none is a
JSON parse throw, some d carries the optional content field. -/
def GroqClient.processLines (parseDelta : String → Option (Option String)) :
    List String → List String
  | [] => []
  | line :: rest =>
    if line.startsWith "data" then
      let data := line.drop 6
      if data = "[DONE]" then []
      else
        match parseDelta data with
        | none => GroqClient.processLines parseDelta rest
        | some contentOpt =>
          let content := contentOpt.getD ""
          if content = "" then GroqClient.processLines parseDelta rest
          else content :: GroqClient.processLines parseDelta rest
    else GroqClient.processLines parseDelta rest

/-- Everything one streamMessage call leaves behind: the fragments
yielded to the consumer, the assistant message appended after the
stream ends, the updated conversation and the next oracle tick. -/
structure StreamOutcome (P V : Type) where
  fragments : List String
  finalMessage : Message P V
  conv : Conversation P V
  tick : Nat

/-- Session.streamMessage (session.ts lines 200-226) with the stream it
consumes (GroqClient.processLines over the body lines): the user
message is appended, every yielded chunk is forwarded and accumulated
into assistantContent, and after the stream ends one assistant message
with the accumulated content is appended; the token counters are not
touched, only updatedAt. -/
def Session.streamMessage (w : World P V)
    (parseDelta : String → Option (Option String)) (bodyLines : List String)
    (conv : Conversation P V) (tick : Nat) (content : String) : StreamOutcome P V :=
  let userMessage : Message P V :=
    { id := w.uuid tick, role := Role.user, content := content,
      toolCalls := none, toolResults := none, timestamp := w.now tick, tokens := none }
  let conv1 := { conv with messages := conv.messages ++ [userMessage] }
  let fragments := GroqClient.processLines parseDelta bodyLines
  let assistantContent := fragments.foldl (· ++ ·) ""
  let assistantMessage : Message P V :=
    { id := w.uuid (tick + 1), role := Role.assistant, content := assistantContent,
      toolCalls := none, toolResults := none, timestamp := w.now (tick + 1),
      tokens := none }
  let conv2 :=
    { conv1 with
      messages := conv1.messages ++ [assistantMessage]
    , updatedAt := w.now (tick + 2) }
  { fragments := fragments
  , finalMessage := assistantMessage
  , conv := conv2
  , tick := tick + 3 }

/-- A concrete tool over Nat parameters and Nat outputs: validation
accepts everything, execution succeeds with the successor. -/
def demoTool : Tool Nat Nat :=
  { name := "adder", description := "adds one",
    parse := fun p => Except.ok p, exec := fun p => Except.ok (p + 1) }

/-- A registry holding exactly demoTool. -/
def demoRegistry : Registry Nat Nat :=
  ToolExecutor.registerTool (emptyRegistry Nat Nat) demoTool

/-- Concrete platform oracles: the arguments string badjson fails to
decode, every other string decodes to the parameter 7. -/
def demoWorld : World Nat Nat :=
  { decodeArgs := fun s =>
      if s = "badjson" then Except.error "Unexpected token b in JSON at position 0"
      else Except.ok 7
  , stringifyOutput := fun v =>
      match v with
      | some n => toString n
      | none => "undefined"
  , stringifyErrorObj := fun m => "error " ++ m
  , uuid := fun k => "uuid-" ++ toString k
  , now := fun k => 1000 + k }

/-- A well-formed completion envelope: one choice with text hello and
no tool calls, usage 10 in and 20 out. -/
def goodData : RawData :=
  { choices := [{ message := some { content := some "hello", tool_calls := none } }]
  , usage := some { input_tokens := some 10, output_tokens := some 20 } }

/-- A completion envelope whose usage object is absent. -/
def dataNoUsage : RawData :=
  { choices := [{ message := some { content := some "hi", tool_calls := none } }]
  , usage := none }

/-- Concrete JSON oracle for the client: the body goodbody decodes to
goodData, every other body is a decode throw. -/
def demoParseJson : String → Except String RawData := fun s =>
  if s = "goodbody" then Except.ok goodData
  else Except.error "Unexpected end of JSON input"

/-- Transport answering 429 on attempts 1 and 2 and a well-formed 200
from attempt 3 on. -/
def transport429twice : Nat → FetchOutcome := fun i =>
  if i ≤ 2 then FetchOutcome.httpResponse 429 "Too Many Requests" "rate limited"
  else FetchOutcome.httpResponse 200 "OK" "goodbody"

/-- Transport answering 429 on attempt 1 only. -/
def transport429once : Nat → FetchOutcome := fun i =>
  if i = 1 then FetchOutcome.httpResponse 429 "Too Many Requests" "rate limited"
  else FetchOutcome.httpResponse 200 "OK" "goodbody"

/-- Transport answering 400 on attempt 1 and a well-formed 200 after. -/
def transport400 : Nat → FetchOutcome := fun i =>
  if i = 1 then FetchOutcome.httpResponse 400 "Bad Request" "invalid request"
  else FetchOutcome.httpResponse 200 "OK" "goodbody"

/-- Transport answering 200 with a malformed body on attempt 1 and a
well-formed 200 after. -/
def transportMalformed : Nat → FetchOutcome := fun i =>
  if i = 1 then FetchOutcome.httpResponse 200 "OK" "malformed"
  else FetchOutcome.httpResponse 200 "OK" "goodbody"

/-- A conversation after some prior turns: three messages and nonzero
token counters. -/
def demoConversation : Conversation Nat Nat :=
  { id := "conv-old"
  , messages :=
      [ { id := "m1", role := Role.system, content := "prompt",
          toolCalls := none, toolResults := none, timestamp := 1, tokens := none }
      , { id := "m2", role := Role.user, content := "question",
          toolCalls := none, toolResults := none, timestamp := 2, tokens := none }
      , { id := "m3", role := Role.assistant, content := "answer",
          toolCalls := none, toolResults := none, timestamp := 3,
          tokens := some { input := 12, output := 34 } } ]
  , totalTokens := { input := 12, output := 34 }
  , createdAt := 1, updatedAt := 3 }

/-- The freshly constructed session conversation used as the starting
point of the turn witnesses. -/
def demoStart : Conversation Nat Nat :=
  Session.initialConversation Nat Nat "conv-0" 500 "prompt" "uuid-s" 501

/-- A wire tool call naming the registered demoTool with decodable
arguments. -/
def wireCallOk : WireToolCall :=
  { id := "call-1", type := "function",
    function := { name := "adder", arguments := "argOK" } }

/-- A wire tool call naming an unregistered tool. -/
def wireCallUnreg : WireToolCall :=
  { id := "call-2", type := "function",
    function := { name := "nosuch", arguments := "argOK" } }

/-- A wire tool call whose arguments string does not decode. -/
def wireCallBadArgs : WireToolCall :=
  { id := "call-3", type := "function",
    function := { name := "adder", arguments := "badjson" } }

/-- First completion response carrying exactly one well-formed tool
call. -/
def respCall : GroqResponse :=
  { content := "", tokens := { input := 3, output := 4 }, toolCalls := [wireCallOk] }

/-- First completion response carrying one call to an unregistered
tool. -/
def respCallUnreg : GroqResponse :=
  { content := "", tokens := { input := 3, output := 4 }, toolCalls := [wireCallUnreg] }

/-- First completion response carrying one call with undecodable
arguments. -/
def respCallBadArgs : GroqResponse :=
  { content := "", tokens := { input := 3, output := 4 }, toolCalls := [wireCallBadArgs] }

/-- Second (final) completion response of a tool turn. -/
def respFinal : GroqResponse :=
  { content := "done", tokens := { input := 5, output := 6 }, toolCalls := [] }

/-- Plain completion responses with no tool calls, for the token
accounting witness. -/
def respPlainA : GroqResponse :=
  { content := "alpha", tokens := { input := 11, output := 7 }, toolCalls := [] }

/-- A second plain completion response. -/
def respPlainB : GroqResponse :=
  { content := "beta", tokens := { input := 2, output := 9 }, toolCalls := [] }

/-- Completion oracle of a turn whose first response is respCall and
whose second is respFinal. -/
def groqToolTurn : Nat → Except String GroqResponse := fun i =>
  if i = 0 then Except.ok respCall else Except.ok respFinal

/-- Completion oracle answering respCallUnreg first, respFinal second. -/
def groqUnregTurn : Nat → Except String GroqResponse := fun i =>
  if i = 0 then Except.ok respCallUnreg else Except.ok respFinal

/-- Completion oracle answering respCallBadArgs first. -/
def groqBadArgsTurn : Nat → Except String GroqResponse := fun i =>
  if i = 0 then Except.ok respCallBadArgs else Except.ok respFinal

/-- C1 counterexample: ToolExecutor.execute on the unregistered name
nonexistent does not return a ToolExecution in the error state; it
throws (the Except.error case) to the caller, refuting the claim that
it never raises. -/
theorem c1_counterexample :
    ToolExecutor.execute (emptyRegistry Nat Nat) "nonexistent" 0 "uuid-0" 1 2
      = Except.error "Tool nonexistent not found" := by
  rfl

/-- C1 (amended): for every unregistered name, ToolExecutor.execute
throws an error whose non-empty message is Tool name not found, instead
of returning a ToolExecution; callers must catch it themselves. -/
theorem c1_amended_unregistered_name_throws (reg : Registry P V) (name : String)
    (params : P) (uuid : String) (t0 t1 : Nat) (h : reg name = none) :
    ToolExecutor.execute reg name params uuid t0 t1
      = Except.error ("Tool " ++ name ++ " not found") ∧
    ("Tool " ++ name ++ " not found") ≠ "" := by
  constructor
  · unfold ToolExecutor.execute
    rw [h]
  · intro hc
    have h2 := congrArg String.length hc
    simp [String.length_append] at h2
    exact absurd h2.2 (by decide)

/-- C1 amended witness at the empty registry and the name
nonexistent. -/
theorem c1_amended_witness :
    emptyRegistry Nat Nat "nonexistent" = none ∧
    (ToolExecutor.execute (emptyRegistry Nat Nat) "nonexistent" 0 "uuid-0" 1 2
        = Except.error ("Tool " ++ "nonexistent" ++ " not found") ∧
      ("Tool " ++ "nonexistent" ++ " not found") ≠ "") :=
  ⟨rfl, c1_amended_unregistered_name_throws (emptyRegistry Nat Nat) "nonexistent"
    0 "uuid-0" 1 2 rfl⟩

/-- C10: for every registered tool and every params value, the
ToolExecution returned by ToolExecutor.execute is terminal (completed
or error, never pending or running) with endTime set; in the completed
state the error field is absent and in the error state it is a
string. -/
theorem c10_execute_terminal_state (reg : Registry P V) (name : String)
    (tool : Tool P V) (params : P) (uuid : String) (t0 t1 : Nat)
    (h : reg name = some tool) :
    ∃ e, ToolExecutor.execute reg name params uuid t0 t1 = Except.ok e ∧
      (e.state = ToolState.completed ∨ e.state = ToolState.error) ∧
      e.state ≠ ToolState.pending ∧ e.state ≠ ToolState.running ∧
      e.endTime = some t1 ∧
      (e.state = ToolState.completed → e.error = none) ∧
      (e.state = ToolState.error → e.error.isSome) := by
  refine ⟨ToolExecutor.runTool tool params uuid t0 t1, ?_, ?_⟩
  · unfold ToolExecutor.execute
    rw [h]
  · unfold ToolExecutor.runTool
    rcases hp : tool.parse params with msg | validated
    · simp
    · rcases he : tool.exec validated with msg | v <;> simp [he]

/-- C10 witness at the demo registry with the registered tool adder. -/
theorem c10_witness :
    demoRegistry "adder" = some demoTool ∧
    (∃ e, ToolExecutor.execute demoRegistry "adder" 7 "uuid-1" 3 4 = Except.ok e ∧
      (e.state = ToolState.completed ∨ e.state = ToolState.error) ∧
      e.state ≠ ToolState.pending ∧ e.state ≠ ToolState.running ∧
      e.endTime = some 4 ∧
      (e.state = ToolState.completed → e.error = none) ∧
      (e.state = ToolState.error → e.error.isSome)) :=
  ⟨rfl, c10_execute_terminal_state demoRegistry "adder" demoTool 7 "uuid-1" 3 4 rfl⟩

/-- C2 is a code bug: with 429 on attempts 1 and 2 and a well-formed
200 available from attempt 3 on, GroqClient.complete never issues a
third attempt (the loop runs while attempt < maxRetries starting at 1,
so only attempts 1 and 2 happen) and throws the exhausted wrapper that
itself names 3 attempts; the same client does succeed when the 200
arrives on attempt 2, showing the retry path is otherwise live. -/
theorem c2_attempt_ceiling_off_by_one :
    GroqClient.complete demoParseJson transport429twice =
      Except.error (GroqClient.exhaustedMsg
        (some (GroqClient.groqApiError 429 "Too Many Requests" "rate limited"))) ∧
    transport429twice 3 = FetchOutcome.httpResponse 200 "OK" "goodbody" ∧
    demoParseJson "goodbody" = Except.ok goodData ∧
    GroqClient.complete demoParseJson transport429once =
      Except.ok (GroqClient.extractResponse goodData) := by
  refine ⟨rfl, rfl, rfl, rfl⟩

/-- C3 is a code bug: a non-retryable HTTP 400 on attempt 1 is thrown
inside the try block, caught by the catch block of the same call, and retried, so
the call succeeds on attempt 2 instead of failing on the first attempt;
a malformed JSON envelope on attempt 1 is likewise caught and retried. -/
theorem c3_non_retryable_is_retried :
    GroqClient.complete demoParseJson transport400 =
      Except.ok (GroqClient.extractResponse goodData) ∧
    transport400 1 = FetchOutcome.httpResponse 400 "Bad Request" "invalid request" ∧
    GroqClient.complete demoParseJson transportMalformed =
      Except.ok (GroqClient.extractResponse goodData) ∧
    transportMalformed 1 = FetchOutcome.httpResponse 200 "OK" "malformed" ∧
    demoParseJson "malformed" = Except.error "Unexpected end of JSON input" := by
  refine ⟨rfl, rfl, rfl, rfl, rfl⟩

/-- C4 counterexample: clearing a conversation that went through prior
turns leaves zero messages, not the one seeded system message the claim
states. -/
theorem c4_counterexample :
    (Session.clear demoConversation "fresh-id" 99).messages.length = 0 ∧
    demoConversation.messages.length = 3 := by
  exact ⟨rfl, rfl⟩

/-- C4 (amended): clear() replaces the conversation by a bare
createConversation: a new id, an empty message list and zero token
counters; the seeded system message is added only by the constructor
(initialConversation), not re-added by clear. -/
theorem c4_amended_clear_resets (P V : Type) (old : Conversation P V)
    (uuid : String) (now : Nat) (uc : String) (nc : Nat) (prompt um : String)
    (nm : Nat) :
    Session.clear old uuid now = createConversation P V uuid now ∧
    (Session.clear old uuid now).id = uuid ∧
    (Session.clear old uuid now).messages = [] ∧
    (Session.clear old uuid now).totalTokens.input = 0 ∧
    (Session.clear old uuid now).totalTokens.output = 0 ∧
    (Session.initialConversation P V uc nc prompt um nm).messages.map Message.role
      = [Role.system] := by
  exact ⟨rfl, rfl, rfl, rfl, rfl, rfl⟩

/-- Helper: a turn answered by a single response with no tool calls
adds exactly the token counts of that response to the conversation
counters. -/
theorem sendMessage_no_toolCalls_totals (w : World P V) (reg : Registry P V)
    (r : GroqResponse) (hr : r.toolCalls = ([] : List WireToolCall))
    (conv : Conversation P V) (tick : Nat) (text : String) :
    ((Session.sendMessage w reg (fun _ => Except.ok r) conv tick text).conv).totalTokens
      = { input := conv.totalTokens.input + r.tokens.input
        , output := conv.totalTokens.output + r.tokens.output } := by
  simp [Session.sendMessage, hr]

/-- Helper: folding sendMessage over turns each answered by a no-tool-
call response accumulates exactly the per-turn token counts. -/
theorem runTurns_totalTokens (w : World P V) (reg : Registry P V)
    (turns : List (String × GroqResponse)) :
    ∀ (conv : Conversation P V) (tick : Nat),
      (∀ p ∈ turns, (p.2).toolCalls = ([] : List WireToolCall)) →
      (Session.runTurns w reg conv tick turns).totalTokens
        = { input := conv.totalTokens.input + (turns.map fun p => p.2.tokens.input).sum
          , output := conv.totalTokens.output
              + (turns.map fun p => p.2.tokens.output).sum } := by
  induction turns with
  | nil => intro conv tick _; simp [Session.runTurns]
  | cons p rest ih =>
    intro conv tick h
    simp only [Session.runTurns]
    rw [ih _ _ (fun q hq => h q (List.mem_cons_of_mem p hq))]
    rw [sendMessage_no_toolCalls_totals w reg p.2 (h p (List.mem_cons_self p rest))
      conv tick p.1]
    simp only [List.map_cons, List.sum_cons, Tokens.mk.injEq]
    omega

/-- C7: over any sequence of sendMessage turns whose completions all
return no tool calls, the token counters grow by exactly the sum of the
input and output counts of the issued completions, getTokenUsage
reports total = input + output on any conversation, and a completion
whose envelope omits usage contributes zero to both counters. -/
theorem c7_token_accounting (w : World P V) (reg : Registry P V)
    (turns : List (String × GroqResponse)) (conv : Conversation P V) (tick : Nat)
    (c : Conversation P V) (d : RawData)
    (h : ∀ p ∈ turns, (p.2).toolCalls = ([] : List WireToolCall))
    (hd : d.usage = none) :
    Session.getTokenUsage (Session.runTurns w reg conv tick turns)
      = { input := conv.totalTokens.input + (turns.map fun p => p.2.tokens.input).sum
        , output := conv.totalTokens.output + (turns.map fun p => p.2.tokens.output).sum
        , total := conv.totalTokens.input + (turns.map fun p => p.2.tokens.input).sum
            + (conv.totalTokens.output
                + (turns.map fun p => p.2.tokens.output).sum) } ∧
    (Session.getTokenUsage c).total
      = (Session.getTokenUsage c).input + (Session.getTokenUsage c).output ∧
    (GroqClient.extractResponse d).tokens = { input := 0, output := 0 } := by
  refine ⟨?_, rfl, ?_⟩
  · unfold Session.getTokenUsage
    rw [runTurns_totalTokens w reg turns conv tick h]
  · simp [GroqClient.extractResponse, hd]

/-- C7 witness: two concrete no-tool-call turns starting from a
conversation with counters 12 and 34. -/
theorem c7_witness :
    Session.getTokenUsage (Session.runTurns demoWorld demoRegistry demoConversation 0
        [("a", respPlainA), ("b", respPlainB)])
      = { input := demoConversation.totalTokens.input
            + (([("a", respPlainA), ("b", respPlainB)].map
                fun p => p.2.tokens.input)).sum
        , output := demoConversation.totalTokens.output
            + (([("a", respPlainA), ("b", respPlainB)].map
                fun p => p.2.tokens.output)).sum
        , total := demoConversation.totalTokens.input
            + (([("a", respPlainA), ("b", respPlainB)].map
                fun p => p.2.tokens.input)).sum
            + (demoConversation.totalTokens.output
                + (([("a", respPlainA), ("b", respPlainB)].map
                    fun p => p.2.tokens.output)).sum) } ∧
    (Session.getTokenUsage (createConversation Nat Nat "x" 0)).total
      = (Session.getTokenUsage (createConversation Nat Nat "x" 0)).input
        + (Session.getTokenUsage (createConversation Nat Nat "x" 0)).output ∧
    (GroqClient.extractResponse dataNoUsage).tokens = { input := 0, output := 0 } :=
  c7_token_accounting demoWorld demoRegistry [("a", respPlainA), ("b", respPlainB)]
    demoConversation 0 (createConversation Nat Nat "x" 0) dataNoUsage
    (by decide) rfl

/-- C8: a streamed turn appends the user message and one assistant
message whose content is exactly the concatenation, in order, of the
fragments yielded to the consumer, and the token counters are not
updated. -/
theorem c8_stream_concat_no_token_accounting (w : World P V)
    (parseDelta : String → Option (Option String)) (bodyLines : List String)
    (conv : Conversation P V) (tick : Nat) (text : String) :
    (Session.streamMessage w parseDelta bodyLines conv tick text).fragments.foldl
        (· ++ ·) ""
      = (Session.streamMessage w parseDelta bodyLines conv tick text).finalMessage.content
    ∧ (Session.streamMessage w parseDelta bodyLines conv tick text).conv.totalTokens
        = conv.totalTokens
    ∧ (∃ u, (Session.streamMessage w parseDelta bodyLines conv tick text).conv.messages
          = conv.messages ++
              [u, (Session.streamMessage w parseDelta bodyLines conv tick
                text).finalMessage]
        ∧ u.role = Role.user ∧ u.content = text
        ∧ (Session.streamMessage w parseDelta bodyLines conv tick text).finalMessage.role
            = Role.assistant) := by
  refine ⟨rfl, rfl,
    ⟨{ id := w.uuid tick, role := Role.user, content := text, toolCalls := none,
       toolResults := none, timestamp := w.now tick, tokens := none },
      ?_, rfl, rfl, rfl⟩⟩
  simp [Session.streamMessage]

/-- C9: when the first completion carries a tool call whose arguments
string fails to decode, sendMessage propagates the decode error to its
caller after a single completion request, folding nothing into the
transcript beyond the already-appended user message. -/
theorem c9_argument_decode_failure_is_fatal (w : World P V) (reg : Registry P V)
    (groq : Nat → Except String GroqResponse) (conv : Conversation P V) (tick : Nat)
    (text : String) (r : GroqResponse) (e : String)
    (hg0 : groq 0 = Except.ok r)
    (hdec : Session.decodeWireCalls w r.toolCalls = Except.error e) :
    (Session.sendMessage w reg groq conv tick text).result = Except.error e ∧
    (∃ u, (Session.sendMessage w reg groq conv tick text).conv.messages
        = conv.messages ++ [u] ∧ u.role = Role.user ∧ u.content = text) ∧
    (Session.sendMessage w reg groq conv tick text).completionsIssued = 1 := by
  have hie : r.toolCalls.isEmpty = false := by
    cases hval : r.toolCalls with
    | nil =>
      rw [hval] at hdec
      simp [Session.decodeWireCalls] at hdec
    | cons a l => rfl
  refine ⟨?_,
    ⟨{ id := w.uuid tick, role := Role.user, content := text, toolCalls := none,
       toolResults := none, timestamp := w.now tick, tokens := none },
      ?_, rfl, rfl⟩, ?_⟩ <;>
    simp [Session.sendMessage, hg0, hie, hdec]

/-- C9 witness: the concrete first response carries one call whose
arguments string badjson does not decode. -/
theorem c9_witness :
    (Session.sendMessage demoWorld demoRegistry groqBadArgsTurn demoStart 0 "hi").result
      = Except.error "Unexpected token b in JSON at position 0" ∧
    (∃ u, (Session.sendMessage demoWorld demoRegistry groqBadArgsTurn demoStart 0
          "hi").conv.messages
        = demoStart.messages ++ [u] ∧ u.role = Role.user ∧ u.content = "hi") ∧
    (Session.sendMessage demoWorld demoRegistry groqBadArgsTurn demoStart 0
        "hi").completionsIssued = 1 :=
  c9_argument_decode_failure_is_fatal demoWorld demoRegistry groqBadArgsTurn demoStart 0
    "hi" respCallBadArgs "Unexpected token b in JSON at position 0" rfl rfl

/-- Helper: whatever the per-call pipeline does, the message appended
for a tool call has role tool. -/
theorem toolTurnMessage_role (w : World P V) (reg : Registry P V) (t : Nat)
    (c : WireToolCall) : (Session.toolTurnMessage w reg t c).role = Role.tool := by
  unfold Session.toolTurnMessage
  cases Session.toolPipeline w reg t c <;> rfl

/-- Helper: the tool loop appends exactly one tool-role message per
call, in call order. -/
theorem runToolCalls_roles (w : World P V) (reg : Registry P V) :
    ∀ (t : Nat) (calls : List WireToolCall),
      ((Session.runToolCalls w reg t calls).1).map Message.role
        = calls.map fun _ => Role.tool := by
  intro t calls
  induction calls generalizing t with
  | nil => rfl
  | cons c rest ih => simp [Session.runToolCalls, toolTurnMessage_role, ih]

/-- C5: a sendMessage whose first completion returns exactly one tool
call that decodes and executes successfully issues exactly 2 completion
requests and appends exactly 3 messages after the user message: the
assistant message carrying the call, one tool message carrying the
result, and the final assistant message, which is also the returned
value. -/
theorem c5_single_tool_call_turn (w : World P V) (reg : Registry P V)
    (groq : Nat → Except String GroqResponse) (conv : Conversation P V) (tick : Nat)
    (text : String) (r r2 : GroqResponse) (c : WireToolCall) (p p2 : P) (v : V)
    (tool : Tool P V)
    (hg0 : groq 0 = Except.ok r) (hcalls : r.toolCalls = [c])
    (hdec : w.decodeArgs c.function.arguments = Except.ok p)
    (hreg : reg c.function.name = some tool)
    (hparse : tool.parse p = Except.ok p2) (hexec : tool.exec p2 = Except.ok v)
    (hg1 : groq 1 = Except.ok r2) :
    (Session.sendMessage w reg groq conv tick text).completionsIssued = 2 ∧
    ((Session.sendMessage w reg groq conv tick text).conv.messages.drop
        conv.messages.length).map Message.role
      = [Role.user, Role.assistant, Role.tool, Role.assistant] ∧
    ((Session.sendMessage w reg groq conv tick text).conv.messages.drop
        conv.messages.length).map
        (fun m => (m.toolCalls.isSome, m.toolResults.isSome))
      = [(false, false), (true, false), (false, true), (false, false)] ∧
    (∃ m, (Session.sendMessage w reg groq conv tick text).result = Except.ok m ∧
      m.role = Role.assistant) := by
  refine ⟨?_, ?_, ?_,
    ⟨{ id := w.uuid (Session.runToolCalls w reg (tick + 2) r.toolCalls).2,
       role := Role.assistant, content := r2.content, toolCalls := none,
       toolResults := none,
       timestamp := w.now (Session.runToolCalls w reg (tick + 2) r.toolCalls).2,
       tokens := some r2.tokens },
      ?_, rfl⟩⟩ <;>
    simp [Session.sendMessage, hg0, hcalls, Session.decodeWireCalls, hdec,
      Session.runToolCalls, Session.toolTurnMessage, Session.toolPipeline,
      ToolExecutor.execute, hreg, ToolExecutor.runTool, hparse, hexec, hg1,
      Bind.bind, Except.bind, Pure.pure, Except.pure, List.append_assoc,
      List.map_append, List.drop_left, List.drop_left']

/-- C5 witness: the concrete single-call tool turn at the demo world
and registry. -/
theorem c5_witness :
    (Session.sendMessage demoWorld demoRegistry groqToolTurn demoStart 0
        "hi").completionsIssued = 2 ∧
    ((Session.sendMessage demoWorld demoRegistry groqToolTurn demoStart 0
        "hi").conv.messages.drop demoStart.messages.length).map Message.role
      = [Role.user, Role.assistant, Role.tool, Role.assistant] ∧
    ((Session.sendMessage demoWorld demoRegistry groqToolTurn demoStart 0
        "hi").conv.messages.drop demoStart.messages.length).map
        (fun m => (m.toolCalls.isSome, m.toolResults.isSome))
      = [(false, false), (true, false), (false, true), (false, false)] ∧
    (∃ m, (Session.sendMessage demoWorld demoRegistry groqToolTurn demoStart 0
        "hi").result = Except.ok m ∧ m.role = Role.assistant) :=
  c5_single_tool_call_turn demoWorld demoRegistry groqToolTurn demoStart 0 "hi"
    respCall respFinal wireCallOk 7 7 8 demoTool rfl rfl rfl rfl rfl rfl rfl

/-- C6: tool errors never fail a turn. Whenever the first completion
carries tool calls whose argument strings all decode, the turn issues
the second completion and returns the final assistant message, with one
tool-role message appended per call; and any call whose pipeline throws
or errs (including an unregistered tool name thrown before the
the containment inside the Executor) yields a tool message whose single result
carries the error string. -/
theorem c6_tool_errors_do_not_fail_turn (w : World P V) (reg : Registry P V)
    (groq : Nat → Except String GroqResponse) (conv : Conversation P V) (tick : Nat)
    (text : String) (r r2 : GroqResponse) (decoded : List (ToolCallRec P))
    (t : Nat) (c : WireToolCall) (emsg : String)
    (hg0 : groq 0 = Except.ok r) (hne : r.toolCalls ≠ [])
    (hdec : Session.decodeWireCalls w r.toolCalls = Except.ok decoded)
    (hg1 : groq 1 = Except.ok r2)
    (herr : Session.toolPipeline w reg t c = Except.error emsg) :
    (Session.sendMessage w reg groq conv tick text).completionsIssued = 2 ∧
    (∃ m, (Session.sendMessage w reg groq conv tick text).result = Except.ok m ∧
      m.role = Role.assistant) ∧
    (∃ u a f, (Session.sendMessage w reg groq conv tick text).conv.messages
        = conv.messages ++ [u, a]
            ++ (Session.runToolCalls w reg (tick + 2) r.toolCalls).1 ++ [f]
        ∧ u.role = Role.user ∧ a.role = Role.assistant ∧ a.toolCalls = some decoded
        ∧ f.role = Role.assistant) ∧
    ((Session.runToolCalls w reg (tick + 2) r.toolCalls).1.map Message.role
      = r.toolCalls.map fun _ => Role.tool) ∧
    (Session.toolTurnMessage w reg t c).role = Role.tool ∧
    (Session.toolTurnMessage w reg t c).toolResults
      = some [{ id := c.id, result := none, error := some emsg }] := by
  have hie : r.toolCalls.isEmpty = false := by
    cases hval : r.toolCalls with
    | nil => exact absurd hval hne
    | cons a l => rfl
  refine ⟨?_,
    ⟨{ id := w.uuid (Session.runToolCalls w reg (tick + 2) r.toolCalls).2,
       role := Role.assistant, content := r2.content, toolCalls := none,
       toolResults := none,
       timestamp := w.now (Session.runToolCalls w reg (tick + 2) r.toolCalls).2,
       tokens := some r2.tokens }, ?_, rfl⟩,
    ⟨{ id := w.uuid tick, role := Role.user, content := text, toolCalls := none,
       toolResults := none, timestamp := w.now tick, tokens := none },
     { id := w.uuid (tick + 1), role := Role.assistant, content := r.content,
       toolCalls := some decoded, toolResults := none, timestamp := w.now (tick + 1),
       tokens := some r.tokens },
     { id := w.uuid (Session.runToolCalls w reg (tick + 2) r.toolCalls).2,
       role := Role.assistant, content := r2.content, toolCalls := none,
       toolResults := none,
       timestamp := w.now (Session.runToolCalls w reg (tick + 2) r.toolCalls).2,
       tokens := some r2.tokens },
     ?_, rfl, rfl, rfl, rfl⟩,
    runToolCalls_roles w reg (tick + 2) r.toolCalls, ?_, ?_⟩ <;>
    simp [Session.sendMessage, hg0, hie, hdec, hg1, Session.toolTurnMessage, herr,
      List.append_assoc]

/-- C6 witness: the concrete turn whose single tool call names the
unregistered tool nosuch; the executor throw is folded into an error
tool message and the turn still completes. -/
theorem c6_witness :
    (Session.sendMessage demoWorld demoRegistry groqUnregTurn demoStart 0
        "hi").completionsIssued = 2 ∧
    (∃ m, (Session.sendMessage demoWorld demoRegistry groqUnregTurn demoStart 0
        "hi").result = Except.ok m ∧ m.role = Role.assistant) ∧
    (∃ u a f, (Session.sendMessage demoWorld demoRegistry groqUnregTurn demoStart 0
          "hi").conv.messages
        = demoStart.messages ++ [u, a]
            ++ (Session.runToolCalls demoWorld demoRegistry (0 + 2)
                respCallUnreg.toolCalls).1 ++ [f]
        ∧ u.role = Role.user ∧ a.role = Role.assistant
        ∧ a.toolCalls = some [{ id := "call-2", name := "nosuch", parameters := 7 }]
        ∧ f.role = Role.assistant) ∧
    ((Session.runToolCalls demoWorld demoRegistry (0 + 2)
        respCallUnreg.toolCalls).1.map Message.role
      = respCallUnreg.toolCalls.map fun _ => Role.tool) ∧
    (Session.toolTurnMessage demoWorld demoRegistry 2 wireCallUnreg).role = Role.tool ∧
    (Session.toolTurnMessage demoWorld demoRegistry 2 wireCallUnreg).toolResults
      = some [{ id := "call-2", result := none, error := some "Tool nosuch not found" }] :=
  c6_tool_errors_do_not_fail_turn demoWorld demoRegistry groqUnregTurn demoStart 0 "hi"
    respCallUnreg respFinal [{ id := "call-2", name := "nosuch", parameters := 7 }]
    2 wireCallUnreg "Tool nosuch not found" rfl (by decide) rfl rfl rfl

end CodeAgent
